import Mathlib

/-!
Verification of the Silkcards configurator core: the procedural card geometry
generator (`CardGeometry.ts`) and the layered material/shading pipeline
(`MaterialPipeline.ts` plus the GLSL layer shaders), shallowly embedded in
Lean 4 over the real numbers.
-/

namespace Silkcards

/-- Component triple modelling GLSL `vec3` / `THREE.Vector3`. -/
structure Vec3 where
  x : ℝ
  y : ℝ
  z : ℝ

namespace Vec3

@[ext] theorem ext3 {a b : Vec3} (hx : a.x = b.x) (hy : a.y = b.y) (hz : a.z = b.z) :
    a = b := by
  cases a; cases b; simp_all

/-- GLSL `dot`. -/
def dot (a b : Vec3) : ℝ := a.x * b.x + a.y * b.y + a.z * b.z

/-- Componentwise addition. -/
def add (a b : Vec3) : Vec3 := ⟨a.x + b.x, a.y + b.y, a.z + b.z⟩

/-- Componentwise subtraction. -/
def sub (a b : Vec3) : Vec3 := ⟨a.x - b.x, a.y - b.y, a.z - b.z⟩

/-- Scalar multiplication of a vector. -/
def smul (t : ℝ) (a : Vec3) : Vec3 := ⟨t * a.x, t * a.y, t * a.z⟩

/-- Componentwise negation. -/
def neg (a : Vec3) : Vec3 := ⟨-a.x, -a.y, -a.z⟩

/-- GLSL `mix(x, y, a) = x*(1-a) + y*a`, componentwise. -/
def mix (p q : Vec3) (a : ℝ) : Vec3 :=
  ⟨p.x * (1 - a) + q.x * a, p.y * (1 - a) + q.y * a, p.z * (1 - a) + q.z * a⟩

/-- GLSL `length`. -/
noncomputable def len (a : Vec3) : ℝ := Real.sqrt (dot a a)

/-- GLSL `normalize`. -/
noncomputable def normalize (a : Vec3) : Vec3 :=
  ⟨a.x / len a, a.y / len a, a.z / len a⟩

/-- GLSL `reflect(I, N) = I - 2*dot(N, I)*N`. -/
def reflect (i n : Vec3) : Vec3 := sub i (smul (2 * dot n i) n)

/-- GLSL `cross`. -/
def cross (a b : Vec3) : Vec3 :=
  ⟨a.y * b.z - a.z * b.y, a.z * b.x - a.x * b.z, a.x * b.y - a.y * b.x⟩

end Vec3

/-- Shader of `foilLayerMock.glsl`: `applyFoilLayer(baseColor, uv, normal,
viewDir, lightDir)` with its `foilEnabled`, `foilIntensity` and `foilMask`
uniforms passed explicitly; the mask texture is a function from UV to its
red channel. -/
noncomputable def applyFoilLayer (foilEnabled : Bool) (foilIntensity : ℝ)
    (foilMask : ℝ × ℝ → ℝ) (baseColor : Vec3) (uv : ℝ × ℝ)
    (normal viewDir lightDir : Vec3) : Vec3 :=
  if foilEnabled = false then baseColor else
  let mask := foilMask uv
  if mask < 0.01 then baseColor else
  let reflectDir := Vec3.reflect (Vec3.neg lightDir) normal
  let specular := (max (Vec3.dot viewDir reflectDir) 0) ^ (32 : ℕ)
  let foilColor : Vec3 := ⟨0.8, 0.7, 0.5⟩
  let metallic := Vec3.mix baseColor foilColor (mask * foilIntensity)
  let specularHighlight := Vec3.smul (specular * mask) ⟨1, 1, 1⟩
  Vec3.add metallic (Vec3.smul 0.3 specularHighlight)

/-- Shader of `uvLayerMock.glsl` (full variant): `applyUVLayer(baseColor, uv,
normal, viewDir, lightDir)` with its `uvEnabled`, `uvGlossiness` and `uvMask`
uniforms passed explicitly. -/
noncomputable def applyUVLayer (uvEnabled : Bool) (uvGlossiness : ℝ)
    (uvMask : ℝ × ℝ → ℝ) (baseColor : Vec3) (uv : ℝ × ℝ)
    (normal viewDir lightDir : Vec3) : Vec3 :=
  if uvEnabled = false then baseColor else
  let mask := uvMask uv
  if mask < 0.01 then baseColor else
  let fresnel := (1 - max (Vec3.dot viewDir normal) 0) ^ (2 : ℕ)
  let reflectDir := Vec3.reflect (Vec3.neg viewDir) normal
  let specular := (max (Vec3.dot lightDir reflectDir) 0) ^ (64 : ℕ)
  let clearcoatColor : Vec3 := ⟨0.95, 0.97, 1⟩
  let clearcoatFactor := mask * uvGlossiness * (0.1 + fresnel * 0.9)
  let clearcoat := Vec3.mix baseColor clearcoatColor (clearcoatFactor * 0.3)
  Vec3.add clearcoat (Vec3.smul (specular * mask * uvGlossiness * 0.5) ⟨1, 1, 1⟩)

/-- Modelled from the spec: the UV-gloss stage as the specification words it,
with blend factor exactly `mask * glossiness * (0.1 + fresnel*0.9)` (no extra
factor on the mix weight), for comparison against `applyUVLayer`. -/
noncomputable def applyUVLayerSpec (uvEnabled : Bool) (uvGlossiness : ℝ)
    (uvMask : ℝ × ℝ → ℝ) (baseColor : Vec3) (uv : ℝ × ℝ)
    (normal viewDir lightDir : Vec3) : Vec3 :=
  if uvEnabled = false then baseColor else
  let mask := uvMask uv
  if mask < 0.01 then baseColor else
  let fresnel := (1 - max (Vec3.dot viewDir normal) 0) ^ (2 : ℕ)
  let reflectDir := Vec3.reflect (Vec3.neg viewDir) normal
  let specular := (max (Vec3.dot lightDir reflectDir) 0) ^ (64 : ℕ)
  let clearcoatColor : Vec3 := ⟨0.95, 0.97, 1⟩
  let clearcoatFactor := mask * uvGlossiness * (0.1 + fresnel * 0.9)
  let clearcoat := Vec3.mix baseColor clearcoatColor clearcoatFactor
  Vec3.add clearcoat (Vec3.smul (specular * mask * uvGlossiness * 0.5) ⟨1, 1, 1⟩)

/-- Shader of `embossLayerMock.glsl` (normal-perturbation variant):
`applyEmbossLayer(baseNormal, uv)` with its `embossEnabled`,
`embossIntensity` and `embossHeightMap` uniforms passed explicitly.
The height map is a function from UV to the red channel. -/
noncomputable def applyEmbossLayer (embossEnabled : Bool) (embossIntensity : ℝ)
    (embossHeightMap : ℝ × ℝ → ℝ) (baseNormal : Vec3) (uv : ℝ × ℝ) : Vec3 :=
  if embossEnabled = false then baseNormal else
  let height := embossHeightMap uv
  if height < 0.01 then baseNormal else
  let texelSize : ℝ := 1 / 512
  let heightL := embossHeightMap (uv.1 - texelSize, uv.2)
  let heightR := embossHeightMap (uv.1 + texelSize, uv.2)
  let heightD := embossHeightMap (uv.1, uv.2 - texelSize)
  let heightU := embossHeightMap (uv.1, uv.2 + texelSize)
  let dx : Vec3 := ⟨1, 0, (heightR - heightL) * embossIntensity⟩
  let dy : Vec3 := ⟨0, 1, (heightU - heightD) * embossIntensity⟩
  let perturbedNormal := Vec3.normalize (Vec3.cross dx dy)
  Vec3.normalize (Vec3.mix baseNormal perturbedNormal (height * embossIntensity * 0.5))

/-- The `main` of the complete fragment shader: base-color fetch with
near-black fallback to `uBaseColor`, view/light direction computation, the
emboss, foil and UV layer stages in order, then ambient-plus-diffuse lighting
multiplied once at the end. Texture samples are passed as functions of UV and
the artwork sample at `vUv` as a color. -/
noncomputable def fragmentMain (foilEnabled uvEnabled embossEnabled : Bool)
    (foilIntensity uvGlossiness embossIntensity : ℝ)
    (artworkSample uBaseColor : Vec3)
    (foilMask uvMask embossMap : ℝ × ℝ → ℝ)
    (vUv : ℝ × ℝ) (vNormal vWorldPosition cameraPosition lightDirection : Vec3) : Vec3 :=
  let baseColor := if Vec3.len artworkSample < 0.01 then uBaseColor else artworkSample
  let viewDir := Vec3.normalize (Vec3.sub cameraPosition vWorldPosition)
  let lightDir := Vec3.normalize lightDirection
  let finalNormal := applyEmbossLayer embossEnabled embossIntensity embossMap vNormal vUv
  let color := applyFoilLayer foilEnabled foilIntensity foilMask baseColor vUv
    finalNormal viewDir lightDir
  let color2 := applyUVLayer uvEnabled uvGlossiness uvMask color vUv
    finalNormal viewDir lightDir
  let ndotl := max (Vec3.dot finalNormal lightDir) 0
  Vec3.smul (0.5 + 0.5 * ndotl) color2

/-- State of `MaterialPipeline`: the layer toggles and intensities stored on
the class instance together with the mirrored shader uniform values
(`material.uniforms.*.value`). -/
structure MaterialPipelineState where
  foilEnabled : Bool
  uvEnabled : Bool
  embossEnabled : Bool
  foilIntensity : ℝ
  uvGlossiness : ℝ
  embossIntensity : ℝ
  uniformFoilIntensity : ℝ
  uniformUvGlossiness : ℝ
  uniformEmbossIntensity : ℝ

/-- `MaterialPipeline.setFoilIntensity`: stores `Math.max(0, Math.min(1, x))`
into the field and copies the field into the uniform. -/
def setFoilIntensity (st : MaterialPipelineState) (intensity : ℝ) : MaterialPipelineState :=
  let v := max 0 (min 1 intensity)
  { st with foilIntensity := v, uniformFoilIntensity := v }

/-- `MaterialPipeline.setUVGlossiness`: stores `Math.max(0, Math.min(1, x))`
into the field and copies the field into the uniform. -/
def setUVGlossiness (st : MaterialPipelineState) (glossiness : ℝ) : MaterialPipelineState :=
  let v := max 0 (min 1 glossiness)
  { st with uvGlossiness := v, uniformUvGlossiness := v }

/-- `MaterialPipeline.setEmbossIntensity`: stores `Math.max(0, Math.min(1, x))`
into the field and copies the field into the uniform. -/
def setEmbossIntensity (st : MaterialPipelineState) (intensity : ℝ) : MaterialPipelineState :=
  let v := max 0 (min 1 intensity)
  { st with embossIntensity := v, uniformEmbossIntensity := v }

/-! ### Geometry engine (`CardGeometry.ts`) -/

/-- Card build parameters: four dimensions plus the corner segment count
(fixed at 8 by the class, kept as a parameter here). -/
structure CardSpec where
  width : ℝ
  height : ℝ
  thickness : ℝ
  cornerRadius : ℝ
  cornerSegments : ℕ

/-- Validity of a spec as the specification defines it: positive dimensions,
nonnegative corner radius bounded by half the shorter side, and at least one
corner segment. -/
def ValidSpec (spec : CardSpec) : Prop :=
  0 < spec.width ∧ 0 < spec.height ∧ 0 < spec.thickness ∧
    0 ≤ spec.cornerRadius ∧
    2 * spec.cornerRadius ≤ min spec.width spec.height ∧
    0 < spec.cornerSegments

/-- One quarter-circle corner arc: `cornerSegments + 1` points sweeping the
angle `(PI/2) * (i / cornerSegments) + offset` around the inset center
`(cx, cy)` at radius `r`, exactly as each corner loop of `buildFace` and
`buildSideFaces` computes. -/
noncomputable def cornerArc (cx cy r offset : ℝ) (s : ℕ) : List (ℝ × ℝ) :=
  (List.range (s + 1)).map fun (i : ℕ) =>
    let angle := (Real.pi / 2) * ((i : ℝ) / (s : ℝ)) + offset
    (cx + r * Real.cos angle, cy + r * Real.sin angle)

/-- The rounded-rectangle outline: the four corner arcs concatenated in the
fixed order top-right, top-left, bottom-left, bottom-right. -/
noncomputable def outline (halfWidth halfHeight r : ℝ) (s : ℕ) : List (ℝ × ℝ) :=
  cornerArc (halfWidth - r) (halfHeight - r) r 0 s ++
    cornerArc (-halfWidth + r) (halfHeight - r) r (Real.pi / 2) s ++
    cornerArc (-halfWidth + r) (-halfHeight + r) r Real.pi s ++
    cornerArc (halfWidth - r) (-halfHeight + r) r (3 * Real.pi / 2) s

/-- Outline of a spec, with `halfWidth = width/2` and `halfHeight = height/2`. -/
noncomputable def specOutline (spec : CardSpec) : List (ℝ × ℝ) :=
  outline (spec.width / 2) (spec.height / 2) spec.cornerRadius spec.cornerSegments

/-- UVs pushed by `buildFace`: the center UV `(0.5, 0.5)` followed by
`((x + halfWidth)/width, (y + halfHeight)/height)` for each outline point. -/
noncomputable def faceUVs (spec : CardSpec) : List (ℝ × ℝ) :=
  (0.5, 0.5) ::
    (specOutline spec).map fun p =>
      ((p.1 + spec.width / 2) / spec.width, (p.2 + spec.height / 2) / spec.height)

/-- Positions pushed by `buildFace`: the center `(0, 0, z)` followed by every
outline point at depth `z`. -/
noncomputable def facePositions (spec : CardSpec) (z : ℝ) : List Vec3 :=
  ⟨0, 0, z⟩ :: (specOutline spec).map fun p => ⟨p.1, p.2, z⟩

/-- Normals pushed by `buildFace`: the face normal repeated for the center
and every outline vertex. -/
noncomputable def faceNormals (spec : CardSpec) (n : Vec3) : List Vec3 :=
  List.replicate ((specOutline spec).length + 1) n

/-- Index triangles pushed by `buildFace`: a fan from the center vertex at
`startIndex` over the outline ring, wrapping modulo the outline size. -/
def faceIndices (startIndex numOutlineVerts : ℕ) : List ℕ :=
  (List.range numOutlineVerts).flatMap fun i =>
    [startIndex, startIndex + 1 + i, startIndex + 1 + (i + 1) % numOutlineVerts]

/-- Euclidean distance of two outline points, as the `Math.sqrt(dx*dx+dy*dy)`
steps of `calculatePerimeterDistance`. -/
noncomputable def dist2 (p q : ℝ × ℝ) : ℝ :=
  Real.sqrt ((q.1 - p.1) * (q.1 - p.1) + (q.2 - p.2) * (q.2 - p.2))

/-- `calculatePerimeter`: analytic perimeter of the rounded rectangle, four
straight sides plus one full circle of corner arcs. -/
noncomputable def calculatePerimeter (spec : CardSpec) : ℝ :=
  2 * (spec.width - 2 * spec.cornerRadius) + 2 * (spec.height - 2 * spec.cornerRadius) +
    2 * Real.pi * spec.cornerRadius

/-- `calculatePerimeterDistance`: cumulative chord distance along the outline
polyline up to the given index. -/
noncomputable def calculatePerimeterDistance (pts : List (ℝ × ℝ)) (idx : ℕ) : ℝ :=
  ∑ i ∈ Finset.range idx, dist2 (pts.getD i (0, 0)) (pts.getD (i + 1) (0, 0))

/-- Side-band U at outline index `i`: cumulative chord distance divided by the
analytic perimeter, as `buildSideFaces` computes `u`. -/
noncomputable def sideU (spec : CardSpec) (i : ℕ) : ℝ :=
  calculatePerimeterDistance (specOutline spec) i / calculatePerimeter spec

/-- Outward side normal at outline index `i`, from the edge to the next point
(wrapping), degenerating to zero for edges shorter than the 0.0001 guard. -/
noncomputable def sideNormal2 (pts : List (ℝ × ℝ)) (i : ℕ) : ℝ × ℝ :=
  let p := pts.getD i (0, 0)
  let q := pts.getD ((i + 1) % pts.length) (0, 0)
  let dx := q.1 - p.1
  let dy := q.2 - p.2
  let len := Real.sqrt (dx * dx + dy * dy)
  if 0.0001 < len then (-dy / len, dx / len) else (0, 0)

/-- Positions pushed by `buildSideFaces`: for each outline index, the front
edge vertex then the back edge vertex. -/
noncomputable def sidePositions (spec : CardSpec) : List Vec3 :=
  (List.range (specOutline spec).length).flatMap fun i =>
    let p := (specOutline spec).getD i (0, 0)
    [⟨p.1, p.2, spec.thickness / 2⟩, ⟨p.1, p.2, -(spec.thickness / 2)⟩]

/-- Normals pushed by `buildSideFaces`: the outward edge normal with zero Z,
duplicated for the front and back edge vertices. -/
noncomputable def sideNormals (spec : CardSpec) : List Vec3 :=
  (List.range (specOutline spec).length).flatMap fun i =>
    let n := sideNormal2 (specOutline spec) i
    [⟨n.1, n.2, 0⟩, ⟨n.1, n.2, 0⟩]

/-- UVs pushed by `buildSideFaces`: `(u, 0)` on the front edge and `(u, 1)` on
the back edge, with the perimeter-normalized `u`. -/
noncomputable def sideUVs (spec : CardSpec) : List (ℝ × ℝ) :=
  (List.range (specOutline spec).length).flatMap fun i =>
    [(sideU spec i, 0), (sideU spec i, 1)]

/-- Index triangles pushed by `buildSideFaces`: for each outline index the
quad `base, base+1, base+2` and `base+1, base+3, base+2` with
`base = startIndex + 2*i`, exactly as the source loop emits them (the loop
computes a wrapped `next` but does not use it in the indices). -/
def sideIndices (startIndex numPoints : ℕ) : List ℕ :=
  (List.range numPoints).flatMap fun i =>
    let base := startIndex + i * 2
    [base, base + 1, base + 2, base + 1, base + 3, base + 2]

/-- The mesh buffers assembled by `buildGeometry`. -/
structure Mesh where
  positions : List Vec3
  normals : List Vec3
  uvs : List (ℝ × ℝ)
  indices : List ℕ

/-- `buildGeometry`: front face, back face and side band appended into one set
of buffers, with each part's start index equal to the number of vertices
already pushed. -/
noncomputable def buildGeometry (spec : CardSpec) : Mesh :=
  let n := (specOutline spec).length
  { positions := facePositions spec (spec.thickness / 2) ++
      facePositions spec (-(spec.thickness / 2)) ++ sidePositions spec
    normals := faceNormals spec ⟨0, 0, 1⟩ ++ faceNormals spec ⟨0, 0, -1⟩ ++ sideNormals spec
    uvs := faceUVs spec ++ faceUVs spec ++ sideUVs spec
    indices := faceIndices 0 n ++ faceIndices (n + 1) n ++ sideIndices (2 * (n + 1)) n }

/-- State of a `CardGeometry` instance: the stored dimensions and the stored
built mesh. -/
structure CardGeometryState where
  width : ℝ
  height : ℝ
  thickness : ℝ
  cornerRadius : ℝ
  geometry : Mesh

/-- The `CardGeometry` constructor: stores the options and builds immediately,
with `cornerSegments` fixed at 8. No validation is performed. -/
noncomputable def mkCardGeometry (width height thickness cornerRadius : ℝ) :
    CardGeometryState :=
  { width := width
    height := height
    thickness := thickness
    cornerRadius := cornerRadius
    geometry := buildGeometry ⟨width, height, thickness, cornerRadius, 8⟩ }

/-- `CardGeometry.updateDimensions`: overwrites the stored dimensions and
rebuilds the geometry unconditionally. No validation is performed. -/
noncomputable def updateDimensions (st : CardGeometryState)
    (width height thickness cornerRadius : ℝ) : CardGeometryState :=
  { st with
    width := width
    height := height
    thickness := thickness
    cornerRadius := cornerRadius
    geometry := buildGeometry ⟨width, height, thickness, cornerRadius, 8⟩ }

/-- The scenario spec from the specification: 85 x 55 x 0.3 card with corner
radius 3 and 8 corner segments. -/
def spec85 : CardSpec := ⟨85, 55, 0.3, 3, 8⟩

/-- A small valid spec with zero corner radius and one corner segment, used as
a concrete evaluation point for the side-band U parameterization. -/
def specFlat : CardSpec := ⟨4, 2, 1, 0, 1⟩

/-! ### Structural helper lemmas -/

lemma cornerArc_length (cx cy r offset : ℝ) (s : ℕ) :
    (cornerArc cx cy r offset s).length = s + 1 := by
  unfold cornerArc
  rw [List.length_map, List.length_range]

lemma outline_length (halfWidth halfHeight r : ℝ) (s : ℕ) :
    (outline halfWidth halfHeight r s).length = 4 * (s + 1) := by
  unfold outline
  simp only [List.length_append, cornerArc_length]
  ring

lemma specOutline_length (spec : CardSpec) :
    (specOutline spec).length = 4 * (spec.cornerSegments + 1) := by
  simp [specOutline, outline_length]

lemma flatMap_range_length {α : Type} (n k : ℕ) (f : ℕ → List α)
    (h : ∀ i, (f i).length = k) : ((List.range n).flatMap f).length = k * n := by
  simp [List.length_flatMap, Function.comp_def, h, List.map_const']
  ring

lemma faceIndices_length (startIndex n : ℕ) :
    (faceIndices startIndex n).length = 3 * n := by
  apply flatMap_range_length
  intro i
  rfl

lemma sideIndices_length (startIndex n : ℕ) :
    (sideIndices startIndex n).length = 6 * n := by
  apply flatMap_range_length
  intro i
  rfl

lemma sidePositions_length (spec : CardSpec) :
    (sidePositions spec).length = 2 * (specOutline spec).length := by
  apply flatMap_range_length
  intro i
  rfl

lemma facePositions_length (spec : CardSpec) (z : ℝ) :
    (facePositions spec z).length = (specOutline spec).length + 1 := by
  simp [facePositions]

lemma faceUVs_length (spec : CardSpec) :
    (faceUVs spec).length = (specOutline spec).length + 1 := by
  simp [faceUVs]

lemma buildGeometry_positions_length (spec : CardSpec) :
    (buildGeometry spec).positions.length = 16 * (spec.cornerSegments + 1) + 2 := by
  simp [buildGeometry, facePositions_length, sidePositions_length, specOutline_length]
  ring

lemma cornerArc_zero_mem {cx cy offset : ℝ} {s : ℕ} {p : ℝ × ℝ}
    (hp : p ∈ cornerArc cx cy 0 offset s) : p = (cx, cy) := by
  unfold cornerArc at hp
  rw [List.mem_map] at hp
  obtain ⟨i, _, rfl⟩ := hp
  simp

lemma buildGeometry_indices_spec85 :
    (buildGeometry spec85).indices =
      faceIndices 0 36 ++ faceIndices 37 36 ++ sideIndices 74 36 := by
  have h : (specOutline spec85).length = 36 := by
    rw [specOutline_length]
    rfl
  simp only [buildGeometry, h]

/-! ### Claim theorems -/

/-- C7: for every half-extents, corner radius and segment count, the outline
has exactly `4*(cornerSegments+1)` points (four arcs of `cornerSegments+1`
points each, concatenated in the fixed corner order), and with
`cornerRadius = 0` every outline point is one of the four sharp rectangle
corners, so the outline reduces to four straight sides meeting at right
angles. -/
theorem C7_outline_point_count (halfWidth halfHeight r : ℝ) (s : ℕ) :
    (outline halfWidth halfHeight r s).length = 4 * (s + 1) ∧
      ∀ p ∈ outline halfWidth halfHeight 0 s,
        (p.1 = halfWidth ∨ p.1 = -halfWidth) ∧ (p.2 = halfHeight ∨ p.2 = -halfHeight) := by
  constructor
  · exact outline_length halfWidth halfHeight r s
  · intro p hp
    unfold outline at hp
    simp only [List.mem_append] at hp
    rcases hp with ((h | h) | h) | h <;>
      rw [cornerArc_zero_mem h] <;> constructor <;> simp

/-- C7 witness: at half-extents 2 and 1 with one corner segment, the outline
with zero radius has 8 points and its member `(2, 1)` has first coordinate
equal to the half-width. -/
theorem C7_outline_point_count_witness :
    (outline 2 1 0 1).length = 4 * (1 + 1) ∧
      ((((2 : ℝ), (1 : ℝ)).1 = 2 ∨ ((2 : ℝ), (1 : ℝ)).1 = -2) ∧
        (((2 : ℝ), (1 : ℝ)).2 = 1 ∨ ((2 : ℝ), (1 : ℝ)).2 = -1)) := by
  refine ⟨(C7_outline_point_count 2 1 0 1).1, (C7_outline_point_count 2 1 0 1).2 (2, 1) ?_⟩
  unfold outline cornerArc
  simp [List.range_succ]

/-- C10: each of the three intensity setters stores the clamp of its argument
to `[0,1]` into the pipeline state field, mirrors that value into the shader
uniform, and the stored value always lies within `[0,1]`. -/
theorem C10_setters_clamp (st : MaterialPipelineState) (x : ℝ) :
    ((setFoilIntensity st x).foilIntensity = max 0 (min 1 x) ∧
      (setFoilIntensity st x).uniformFoilIntensity = (setFoilIntensity st x).foilIntensity ∧
      0 ≤ (setFoilIntensity st x).foilIntensity ∧
      (setFoilIntensity st x).foilIntensity ≤ 1) ∧
    ((setUVGlossiness st x).uvGlossiness = max 0 (min 1 x) ∧
      (setUVGlossiness st x).uniformUvGlossiness = (setUVGlossiness st x).uvGlossiness ∧
      0 ≤ (setUVGlossiness st x).uvGlossiness ∧
      (setUVGlossiness st x).uvGlossiness ≤ 1) ∧
    ((setEmbossIntensity st x).embossIntensity = max 0 (min 1 x) ∧
      (setEmbossIntensity st x).uniformEmbossIntensity = (setEmbossIntensity st x).embossIntensity ∧
      0 ≤ (setEmbossIntensity st x).embossIntensity ∧
      (setEmbossIntensity st x).embossIntensity ≤ 1) := by
  refine ⟨⟨rfl, rfl, le_max_left 0 _, max_le zero_le_one (min_le_left 1 x)⟩,
    ⟨rfl, rfl, le_max_left 0 _, max_le zero_le_one (min_le_left 1 x)⟩,
    ⟨rfl, rfl, le_max_left 0 _, max_le zero_le_one (min_le_left 1 x)⟩⟩

/-- C4 counterexample: for the 85 x 55 x 0.3 spec with corner radius 3 and 8
corner segments, the built mesh does not have `2*(36+1) + 2*36 = 146`
triangles; its index buffer holds 432 entries, not 438. -/
theorem C4_triangle_count_counterexample :
    (buildGeometry spec85).indices.length ≠ 3 * (2 * (36 + 1) + 2 * 36) := by
  rw [buildGeometry_indices_spec85, List.length_append, List.length_append,
    faceIndices_length, faceIndices_length, sideIndices_length]
  norm_num

/-- C4 amended: for the 85 x 55 x 0.3 spec with corner radius 3 and 8 corner
segments, the outline has 36 points and the mesh has `2*36` front/back
triangles plus `2*36` side triangles, 144 triangles total. -/
theorem C4_triangle_count :
    (specOutline spec85).length = 36 ∧
      (buildGeometry spec85).indices.length = 3 * (2 * 36 + 2 * 36) := by
  refine ⟨by rw [specOutline_length]; rfl, ?_⟩
  rw [buildGeometry_indices_spec85, List.length_append, List.length_append,
    faceIndices_length, faceIndices_length, sideIndices_length]

set_option maxRecDepth 8192 in
/-- C1: the claim fails on the code. For the 85 x 55 x 0.3 spec with 8 corner
segments the mesh has 146 vertices (valid slots 0..145), yet the index buffer
contains the entry 147: the final side-band quad is emitted with indices
`base+2` and `base+3` past the end of the vertex buffer instead of wrapping
back to the first side vertex pair. -/
theorem C1_index_out_of_range :
    (buildGeometry spec85).positions.length = 146 ∧ 147 ∈ (buildGeometry spec85).indices := by
  constructor
  · rw [buildGeometry_positions_length]
    rfl
  · rw [buildGeometry_indices_spec85]
    decide

/-- C8: the emboss stage returns the input normal unchanged whenever the stage
is disabled or the sampled height is below the 0.01 threshold (in particular
for a zero mask), and otherwise returns the input normal blended with the
finite-difference perturbed normal by the factor `height * intensity * 0.5`
(renormalized, as the shader does). -/
theorem C8_emboss_passthrough (embossEnabled : Bool) (embossIntensity : ℝ)
    (embossHeightMap : ℝ × ℝ → ℝ) (baseNormal : Vec3) (uv : ℝ × ℝ) :
    ((embossEnabled = false ∨ embossHeightMap uv < 0.01) →
      applyEmbossLayer embossEnabled embossIntensity embossHeightMap baseNormal uv =
        baseNormal) ∧
    (embossEnabled = true → 0.01 ≤ embossHeightMap uv →
      applyEmbossLayer embossEnabled embossIntensity embossHeightMap baseNormal uv =
        Vec3.normalize (Vec3.mix baseNormal
          (Vec3.normalize (Vec3.cross
            ⟨1, 0, (embossHeightMap (uv.1 + 1 / 512, uv.2) -
              embossHeightMap (uv.1 - 1 / 512, uv.2)) * embossIntensity⟩
            ⟨0, 1, (embossHeightMap (uv.1, uv.2 + 1 / 512) -
              embossHeightMap (uv.1, uv.2 - 1 / 512)) * embossIntensity⟩))
          (embossHeightMap uv * embossIntensity * 0.5))) := by
  constructor
  · rintro (h | h)
    · simp [applyEmbossLayer, h]
    · unfold applyEmbossLayer
      split_ifs
      · rfl
      · simp [h]
  · intro he h2
    subst he
    simp [applyEmbossLayer, not_lt.mpr h2]

/-- C8 witness: with emboss enabled and a zero height mask, the returned
normal equals the input normal exactly. -/
theorem C8_emboss_passthrough_witness :
    applyEmbossLayer true 1 (fun _ => 0) ⟨0, 0, 1⟩ (0.5, 0.5) = ⟨0, 0, 1⟩ :=
  (C8_emboss_passthrough true 1 (fun _ => 0) ⟨0, 0, 1⟩ (0.5, 0.5)).1
    (Or.inr (by norm_num))

/-- C5 counterexample: the claim fails as stated. At full mask and glossiness
with view aligned to the normal, the code blends with weight
`mask * glossiness * (0.1 + fresnel*0.9) * 0.3`, not
`mask * glossiness * (0.1 + fresnel*0.9)`: the code and the spec-worded stage
produce different colors (z component 0.03 versus 0.1). -/
theorem C5_uv_gloss_counterexample :
    applyUVLayer true 1 (fun _ => 1) ⟨0, 0, 0⟩ (0, 0) ⟨0, 0, 1⟩ ⟨0, 0, 1⟩ ⟨0, 0, -1⟩ ≠
      applyUVLayerSpec true 1 (fun _ => 1) ⟨0, 0, 0⟩ (0, 0) ⟨0, 0, 1⟩ ⟨0, 0, 1⟩ ⟨0, 0, -1⟩ := by
  unfold applyUVLayer applyUVLayerSpec
  norm_num [Vec3.mix, Vec3.add, Vec3.smul, Vec3.dot, Vec3.reflect, Vec3.neg,
    Vec3.sub, Vec3.mk.injEq, max_def]

/-- C5 amended: when the UV-gloss stage is enabled and the sampled mask is at
least 0.01, the output blends the input color toward the near-white clearcoat
tint with blend factor `mask * glossiness * (0.1 + fresnel*0.9) * 0.3` (the
code multiplies the claimed factor by a further 0.3) plus the specular term
`pow(max(dot(light, reflect(-view, normal)), 0), 64) * mask * glossiness *
0.5`; otherwise the input color is returned unchanged. -/
theorem C5_uv_gloss (uvGlossiness : ℝ) (uvMask : ℝ × ℝ → ℝ) (baseColor : Vec3)
    (uv : ℝ × ℝ) (normal viewDir lightDir : Vec3) :
    (∀ uvEnabledArg : Bool, (uvEnabledArg = false ∨ uvMask uv < 0.01) →
      applyUVLayer uvEnabledArg uvGlossiness uvMask baseColor uv normal viewDir lightDir =
        baseColor) ∧
    (0.01 ≤ uvMask uv →
      applyUVLayer true uvGlossiness uvMask baseColor uv normal viewDir lightDir =
        Vec3.add
          (Vec3.mix baseColor ⟨0.95, 0.97, 1⟩
            (uvMask uv * uvGlossiness *
              (0.1 + (1 - max (Vec3.dot viewDir normal) 0) ^ (2 : ℕ) * 0.9) * 0.3))
          (Vec3.smul
            ((max (Vec3.dot lightDir (Vec3.reflect (Vec3.neg viewDir) normal)) 0) ^ (64 : ℕ) *
              uvMask uv * uvGlossiness * 0.5) ⟨1, 1, 1⟩)) := by
  constructor
  · rintro b (h | h)
    · simp [applyUVLayer, h]
    · unfold applyUVLayer
      split_ifs
      · rfl
      · simp [h]
  · intro h2
    simp [applyUVLayer, not_lt.mpr h2]

/-- C5 witness: concrete evaluation of the enabled branch, with full mask and
glossiness, the view along the normal and the light opposed to the
reflection: the output is the 0.03-weight blend of black toward the clearcoat
tint. -/
theorem C5_uv_gloss_witness :
    applyUVLayer true 1 (fun _ => 1) ⟨0, 0, 0⟩ (0, 0) ⟨0, 0, 1⟩ ⟨0, 0, 1⟩ ⟨0, 0, -1⟩ =
      ⟨0.0285, 0.0291, 0.03⟩ := by
  have h := (C5_uv_gloss 1 (fun _ => 1) ⟨0, 0, 0⟩ (0, 0) ⟨0, 0, 1⟩ ⟨0, 0, 1⟩
    ⟨0, 0, -1⟩).2 (by norm_num)
  rw [h]
  norm_num [Vec3.mix, Vec3.add, Vec3.smul, Vec3.dot, Vec3.reflect, Vec3.neg,
    Vec3.sub, Vec3.mk.injEq, max_def]

lemma normalize_of_len_one {v : Vec3} (h : Vec3.len v = 1) : Vec3.normalize v = v := by
  unfold Vec3.normalize
  rw [h]
  simp

/-- C9: with the foil, UV-gloss and emboss layers all disabled, a unit light
direction and a non-near-black artwork sample, the fragment shader output is
exactly the artwork sample scaled by the ambient-plus-diffuse factor
`0.5 + 0.5*max(dot(normal, light), 0)`, applied once after all layer
stages. -/
theorem C9_lighting_baseline (foilIntensity uvGlossiness embossIntensity : ℝ)
    (artworkSample uBaseColor : Vec3) (foilMask uvMask embossMap : ℝ × ℝ → ℝ)
    (vUv : ℝ × ℝ) (vNormal vWorldPosition cameraPosition lightDirection : Vec3)
    (hsample : 0.01 ≤ Vec3.len artworkSample)
    (hlight : Vec3.len lightDirection = 1) :
    fragmentMain false false false foilIntensity uvGlossiness embossIntensity
      artworkSample uBaseColor foilMask uvMask embossMap vUv vNormal
      vWorldPosition cameraPosition lightDirection =
      Vec3.smul (0.5 + 0.5 * max (Vec3.dot vNormal lightDirection) 0) artworkSample := by
  unfold fragmentMain
  rw [normalize_of_len_one hlight]
  simp [applyEmbossLayer, applyFoilLayer, applyUVLayer, not_lt.mpr hsample]

/-- C9 witness: a pure red sample under a unit Z light aligned with the
normal comes out unchanged (full lighting factor 1). -/
theorem C9_lighting_baseline_witness :
    fragmentMain false false false 1 1 1 ⟨1, 0, 0⟩ ⟨0, 0, 0⟩ (fun _ => 0) (fun _ => 0)
      (fun _ => 0.5) (0.5, 0.5) ⟨0, 0, 1⟩ ⟨0, 0, 0⟩ ⟨0, 0, 5⟩ ⟨0, 0, 1⟩ = ⟨1, 0, 0⟩ := by
  have h := C9_lighting_baseline 1 1 1 ⟨1, 0, 0⟩ ⟨0, 0, 0⟩ (fun _ => 0) (fun _ => 0)
    (fun _ => 0.5) (0.5, 0.5) ⟨0, 0, 1⟩ ⟨0, 0, 0⟩ ⟨0, 0, 5⟩ ⟨0, 0, 1⟩
    (by norm_num [Vec3.len, Vec3.dot, Real.sqrt_one])
    (by norm_num [Vec3.len, Vec3.dot, Real.sqrt_one])
  rw [h]
  norm_num [Vec3.smul, Vec3.dot, Vec3.mk.injEq, max_def]

lemma buildGeometry_positions_one (spec : CardSpec) :
    (buildGeometry spec).positions[1]? =
      some ⟨spec.width / 2, spec.height / 2 - spec.cornerRadius, spec.thickness / 2⟩ := by
  unfold buildGeometry facePositions specOutline outline cornerArc
  rw [List.range_succ_eq_map]
  simp [Real.cos_zero, Real.sin_zero]

/-- C2: the claim fails on the code. The constructor and `updateDimensions`
perform no validation: updating a well-built card to the invalid width `-1`
does not error, rebuilds a full 146-vertex mesh from the invalid dimensions,
and the stored geometry changes instead of keeping its last good state. -/
theorem C2_no_validation :
    (updateDimensions (mkCardGeometry 85 55 0.3 3) (-1) 55 0.3 3).geometry.positions.length =
      146 ∧
    (updateDimensions (mkCardGeometry 85 55 0.3 3) (-1) 55 0.3
        3).geometry.positions[1]? ≠
      (mkCardGeometry 85 55 0.3 3).geometry.positions[1]? := by
  constructor
  · show (buildGeometry ⟨-1, 55, 0.3, 3, 8⟩).positions.length = 146
    rw [buildGeometry_positions_length]
    rfl
  · show (buildGeometry ⟨-1, 55, 0.3, 3, 8⟩).positions[1]? ≠
      (buildGeometry ⟨85, 55, 0.3, 3, 8⟩).positions[1]?
    rw [buildGeometry_positions_one, buildGeometry_positions_one]
    norm_num [Vec3.mk.injEq]

lemma mem_cornerArc {cx cy r offset : ℝ} {s : ℕ} {p : ℝ × ℝ}
    (hp : p ∈ cornerArc cx cy r offset s) :
    ∃ t u : ℝ, -1 ≤ t ∧ t ≤ 1 ∧ -1 ≤ u ∧ u ≤ 1 ∧ p = (cx + r * t, cy + r * u) := by
  unfold cornerArc at hp
  rw [List.mem_map] at hp
  obtain ⟨i, _, rfl⟩ := hp
  exact ⟨_, _, Real.neg_one_le_cos _, Real.cos_le_one _, Real.neg_one_le_sin _,
    Real.sin_le_one _, rfl⟩

lemma outline_mem_bounds {hw hh r : ℝ} {s : ℕ} (h0 : 0 ≤ r) (hrw : r ≤ hw) (hrh : r ≤ hh) :
    ∀ p ∈ outline hw hh r s, -hw ≤ p.1 ∧ p.1 ≤ hw ∧ -hh ≤ p.2 ∧ p.2 ≤ hh := by
  intro p hp
  unfold outline at hp
  simp only [List.mem_append] at hp
  rcases hp with ((h | h) | h) | h <;>
    obtain ⟨t, u, ht1, ht2, hu1, hu2, rfl⟩ := mem_cornerArc h <;>
    have h1 : r * t ≤ r * 1 := mul_le_mul_of_nonneg_left ht2 h0 <;>
    have h2 : r * (-1) ≤ r * t := mul_le_mul_of_nonneg_left ht1 h0 <;>
    have h3 : r * u ≤ r * 1 := mul_le_mul_of_nonneg_left hu2 h0 <;>
    have h4 : r * (-1) ≤ r * u := mul_le_mul_of_nonneg_left hu1 h0 <;>
    refine ⟨?_, ?_, ?_, ?_⟩ <;> dsimp only <;> nlinarith

lemma faceUVs_mem_bounds {spec : CardSpec} (h : ValidSpec spec) :
    ∀ p ∈ faceUVs spec, 0 ≤ p.1 ∧ p.1 ≤ 1 ∧ 0 ≤ p.2 ∧ p.2 ≤ 1 := by
  obtain ⟨hw, hh, -, hr, hmin, -⟩ := h
  intro p hp
  rw [faceUVs, List.mem_cons] at hp
  rcases hp with rfl | hp
  · norm_num
  · rw [List.mem_map] at hp
    obtain ⟨q, hq, rfl⟩ := hp
    have hrw : spec.cornerRadius ≤ spec.width / 2 := by
      have := hmin.trans (min_le_left spec.width spec.height)
      linarith
    have hrh : spec.cornerRadius ≤ spec.height / 2 := by
      have := hmin.trans (min_le_right spec.width spec.height)
      linarith
    obtain ⟨hx1, hx2, hy1, hy2⟩ := outline_mem_bounds hr hrw hrh q hq
    refine ⟨div_nonneg (by linarith) hw.le, ?_, div_nonneg (by linarith) hh.le, ?_⟩
    · rw [div_le_one hw]
      linarith
    · rw [div_le_one hh]
      linarith

/-- C6: for every valid spec, every front/back face UV lies in the unit
square, and the front face's UV block of the built mesh is identical to the
back face's UV block (in particular all corner-arc UVs register exactly
between the front and back outlines). -/
theorem C6_face_uv_bounds_registration (spec : CardSpec) (h : ValidSpec spec) :
    (∀ p ∈ faceUVs spec, 0 ≤ p.1 ∧ p.1 ≤ 1 ∧ 0 ≤ p.2 ∧ p.2 ≤ 1) ∧
      (buildGeometry spec).uvs.take (faceUVs spec).length = faceUVs spec ∧
      ((buildGeometry spec).uvs.drop (faceUVs spec).length).take (faceUVs spec).length =
        faceUVs spec := by
  have huvs : (buildGeometry spec).uvs = faceUVs spec ++ (faceUVs spec ++ sideUVs spec) := by
    simp only [buildGeometry]
    exact List.append_assoc _ _ _
  refine ⟨faceUVs_mem_bounds h, ?_, ?_⟩
  · rw [huvs]
    exact List.take_left _ _
  · rw [huvs, List.drop_left]
    exact List.take_left _ _

/-- C6 witness: for the 85 x 55 spec, the front and back UV blocks of the
built mesh both equal the face UV list. -/
theorem C6_face_uv_bounds_registration_witness :
    (buildGeometry spec85).uvs.take (faceUVs spec85).length = faceUVs spec85 ∧
      ((buildGeometry spec85).uvs.drop (faceUVs spec85).length).take
        (faceUVs spec85).length = faceUVs spec85 :=
  ⟨(C6_face_uv_bounds_registration spec85
      (by norm_num [ValidSpec, spec85, min_def])).2.1,
    (C6_face_uv_bounds_registration spec85
      (by norm_num [ValidSpec, spec85, min_def])).2.2⟩

lemma calculatePerimeter_pos {spec : CardSpec} (h : ValidSpec spec) :
    0 < calculatePerimeter spec := by
  obtain ⟨hw, hh, -, hr, hmin, -⟩ := h
  have h1 : 2 * spec.cornerRadius ≤ spec.width := hmin.trans (min_le_left _ _)
  have h2 : 2 * spec.cornerRadius ≤ spec.height := hmin.trans (min_le_right _ _)
  have hpi := Real.pi_gt_three
  unfold calculatePerimeter
  nlinarith

/-- C3 amended: for every valid CardSpec, the side-band U coordinate assigned
to successive outline points is monotonically non-decreasing around the
outline; the U value at the last outline point is the cumulative chord-length
distance divided by the analytic perimeter, and it does not in general reach
exactly 1.0 there. -/
theorem C3_sideU_monotone (spec : CardSpec) (h : ValidSpec spec) :
    ∀ i j : ℕ, i ≤ j → j < 4 * (spec.cornerSegments + 1) →
      sideU spec i ≤ sideU spec j := by
  intro i j hij _
  unfold sideU
  rw [div_le_div_iff_of_pos_right (calculatePerimeter_pos h)]
  unfold calculatePerimeterDistance
  apply Finset.sum_le_sum_of_subset_of_nonneg (Finset.range_subset.mpr hij)
  intro k _ _
  exact Real.sqrt_nonneg _

/-- C3 witness: for the 85 x 55 spec the side-band U at outline index 0 is at
most the U at index 1. -/
theorem C3_sideU_monotone_witness : sideU spec85 0 ≤ sideU spec85 1 :=
  C3_sideU_monotone spec85 (by norm_num [ValidSpec, spec85, min_def]) 0 1
    (by norm_num) (by norm_num [spec85])

/-- C3 counterexample: the claim fails as stated. The 4 x 2 card with corner
radius 0 and one corner segment is a valid spec, yet the side-band U at its
last outline point (index 7) is 5/6, not exactly 1.0: the cumulative chord
distance to the last point is 10 (it excludes the closing edge) while the
analytic perimeter is 12. -/
theorem C3_sideU_last_counterexample :
    ValidSpec specFlat ∧ sideU specFlat 7 ≠ 1 := by
  have houtline : specOutline specFlat =
      [((2 : ℝ), (1 : ℝ)), (2, 1), (-2, 1), (-2, 1), (-2, -1), (-2, -1), (2, -1), (2, -1)] := by
    unfold specFlat specOutline outline cornerArc
    norm_num [show List.range 2 = [0, 1] from rfl]
  have h16 : Real.sqrt 16 = 4 := by
    rw [show (16 : ℝ) = 4 ^ 2 by norm_num]
    exact Real.sqrt_sq (by norm_num)
  have h4 : Real.sqrt 4 = 2 := by
    rw [show (4 : ℝ) = 2 ^ 2 by norm_num]
    exact Real.sqrt_sq (by norm_num)
  have hdist : calculatePerimeterDistance (specOutline specFlat) 7 = 10 := by
    rw [houtline]
    unfold calculatePerimeterDistance dist2
    rw [Finset.sum_range_succ, Finset.sum_range_succ, Finset.sum_range_succ,
      Finset.sum_range_succ, Finset.sum_range_succ, Finset.sum_range_succ,
      Finset.sum_range_succ, Finset.sum_range_zero]
    norm_num [List.getD, h16, h4, Real.sqrt_zero]
  have hperim : calculatePerimeter specFlat = 12 := by
    norm_num [calculatePerimeter, specFlat]
  refine ⟨by norm_num [ValidSpec, specFlat, min_def], ?_⟩
  unfold sideU
  rw [hdist, hperim]
  norm_num

end Silkcards
